import Mathlib

/-!
Verification of the validator-client scheduling core (block service,
attestation service, endpoint fallback routing, doppelganger filters).

Each definition is a shallow embedding of the corresponding Rust item:

* `BlockError`, `FallbackError`, `Errors`, `block_error_from_errors` —
  `validator_services/src/block_service.rs`, `impl From<Errors<BlockError>>`.
* `handle_block_post_error`, `publish_signed_block_contents` — same file.
* `first_success`, `broadcast_request` — modelled from the spec (the
  `beacon_node_fallback` crate is not among the staged sources).
* `request_proposers_first`, `request_proposers_last` — `ProposerFallback`.
* `get_builder_boost_factor` — same file.
* `do_update` — block service notification handling.
* `DoppelgangerStatus` with its three filters — `validator_store/src/lib.rs`.
* The attestation two-phase routine — `attestation_service.rs`.

Network and signing collaborators are parameters (per-endpoint outcomes,
per-duty signing outcomes); logs and network calls are reified as actions so
that claims about "no network call happens" are statable.
-/

namespace Lighthouse

/-- 48-byte opaque validator public key, modelled as a number. -/
abbrev Pubkey := Nat

/-- Log severity of the tracing macros used by the services. -/
inductive LogLevel
  | trace
  | debug
  | info
  | warn
  | error
  | crit
  deriving DecidableEq, Repr

/-- One emitted log line: severity and static message. -/
structure LogEvent where
  level : LogLevel
  msg : String
  deriving DecidableEq, Repr

/-! ## Block publish error classification (block_service.rs) -/

/-- `BlockError` of `block_service.rs`: `Recoverable` may be retried next
slot, `Irrecoverable` must never be retried because a block may already
have been signed. -/
inductive BlockError
  | Recoverable (msg : String)
  | Irrecoverable (msg : String)
  deriving DecidableEq, Repr

/-- Per-endpoint failure of the fallback pool, specialised to `BlockError`:
either the endpoint was unusable (offline, not synced) or the request itself
ran and failed. -/
inductive FallbackError
  | Unavailable (msg : String)
  | RequestFailed (err : BlockError)
  deriving DecidableEq, Repr

/-- `Errors<BlockError>`: the composite error of the fallback pool, one
entry (endpoint identifier, failure) per failed endpoint. -/
structure Errors where
  entries : List (String × FallbackError)
  deriving DecidableEq, Repr

/-- Rendering of one per-endpoint failure, for `Errors::to_string`. -/
def fallback_error_to_string : FallbackError → String
  | FallbackError.Unavailable msg => "Unavailable: " ++ msg
  | FallbackError.RequestFailed (BlockError.Recoverable msg) =>
      "Recoverable: " ++ msg
  | FallbackError.RequestFailed (BlockError.Irrecoverable msg) =>
      "Irrecoverable: " ++ msg

/-- Rendering of the composite error, standing in for `Errors::to_string`. -/
def errors_to_string (e : Errors) : String :=
  e.entries.foldl
    (fun acc p => acc ++ p.1 ++ ": " ++ fallback_error_to_string p.2 ++ "; ")
    "Some endpoints failed. "

/-- The `matches!` test of the `From` impl: the failure is a request that
ran and returned `BlockError::Irrecoverable`. -/
def is_irrecoverable_failure : FallbackError → Bool
  | FallbackError.RequestFailed (BlockError.Irrecoverable _) => true
  | _ => false

/-- `impl From<Errors<BlockError>> for BlockError`: the combined error is
`Irrecoverable` when any per-endpoint failure is
`RequestFailed(Irrecoverable)`, else `Recoverable`. -/
def block_error_from_errors (e : Errors) : BlockError :=
  if e.entries.any (fun p => is_irrecoverable_failure p.2) then
    BlockError.Irrecoverable (errors_to_string e)
  else
    BlockError.Recoverable (errors_to_string e)

/-- `eth2::Error` as seen by `handle_block_post_error`: an optional HTTP
status (absent for transport errors) and a display message. -/
structure Eth2Error where
  status : Option Nat
  msg : String
  deriving DecidableEq, Repr

/-- `handle_block_post_error` (block_service.rs): a `202 Accepted` error
response is success with an INFO log, any other 2xx is success with a DEBUG
log, everything else (including a missing status) is
`BlockError::Irrecoverable`. -/
def handle_block_post_error (err : Eth2Error) : List LogEvent × Except BlockError Unit :=
  match err.status with
  | some status =>
    if status = 202 then
      ([⟨LogLevel.info, "Block is already known to BN or might be invalid"⟩],
        Except.ok ())
    else if 200 ≤ status ∧ status < 300 then
      ([⟨LogLevel.debug, "Block published with non-standard success code"⟩],
        Except.ok ())
    else
      ([], Except.error (BlockError.Irrecoverable
        ("Error from beacon node when publishing block: " ++ err.msg)))
  | none =>
      ([], Except.error (BlockError.Irrecoverable
        ("Error from beacon node when publishing block: " ++ err.msg)))

/-- `publish_signed_block_contents`: both the full and the blinded branch
post the block and pass any error through `handle_block_post_error` via
`or_else`; the HTTP outcome of the post is the parameter. -/
def publish_signed_block_contents (post_result : Except Eth2Error Unit) :
    List LogEvent × Except BlockError Unit :=
  match post_result with
  | Except.ok _ => ([], Except.ok ())
  | Except.error e => handle_block_post_error e

/-! ## Builder boost factor (block_service.rs) -/

/-- `get_builder_boost_factor`: per-validator configuration first, else the
process-wide default; a selected value of `100` is rewritten to `None`. -/
def get_builder_boost_factor
    (validator_builder_boost_factor default_builder_boost_factor : Option Nat) :
    Option Nat :=
  let maybe_builder_boost_factor :=
    validator_builder_boost_factor.orElse fun _ => default_builder_boost_factor
  match maybe_builder_boost_factor with
  | some builder_boost_factor =>
      if builder_boost_factor = 100 then none else some builder_boost_factor
  | none => none

/-! ## Doppelganger status filters (validator_store/src/lib.rs) -/

/-- Three-valued doppelganger tag carried with a pubkey. -/
inductive DoppelgangerStatus
  | SigningEnabled (pubkey : Pubkey)
  | SigningDisabled (pubkey : Pubkey)
  | UnknownToDoppelganger (pubkey : Pubkey)
  deriving DecidableEq, Repr

/-- The pubkey carried by a `DoppelgangerStatus`. -/
def status_pubkey : DoppelgangerStatus → Pubkey
  | DoppelgangerStatus.SigningEnabled pubkey => pubkey
  | DoppelgangerStatus.SigningDisabled pubkey => pubkey
  | DoppelgangerStatus.UnknownToDoppelganger pubkey => pubkey

/-- Whether the status is `SigningEnabled`. -/
def is_signing_enabled : DoppelgangerStatus → Bool
  | DoppelgangerStatus.SigningEnabled _ => true
  | _ => false

/-- Whether the status is `UnknownToDoppelganger`. -/
def is_unknown_to_doppelganger : DoppelgangerStatus → Bool
  | DoppelgangerStatus.UnknownToDoppelganger _ => true
  | _ => false

/-- `DoppelgangerStatus::only_safe`: only a `SigningEnabled` key. -/
def only_safe : DoppelgangerStatus → Option Pubkey
  | DoppelgangerStatus.SigningEnabled pubkey => some pubkey
  | DoppelgangerStatus.SigningDisabled _ => none
  | DoppelgangerStatus.UnknownToDoppelganger _ => none

/-- `DoppelgangerStatus::ignored`: any key known to the doppelganger
service, whether or not it may sign. -/
def ignored : DoppelgangerStatus → Option Pubkey
  | DoppelgangerStatus.SigningEnabled pubkey => some pubkey
  | DoppelgangerStatus.SigningDisabled pubkey => some pubkey
  | DoppelgangerStatus.UnknownToDoppelganger _ => none

/-- `DoppelgangerStatus::only_unsafe`: only a key that must not sign. -/
def only_unsafe : DoppelgangerStatus → Option Pubkey
  | DoppelgangerStatus.SigningEnabled _ => none
  | DoppelgangerStatus.SigningDisabled pubkey => some pubkey
  | DoppelgangerStatus.UnknownToDoppelganger pubkey => some pubkey

/-! ## Theorems for the pure classifiers -/

/-- C1: a `202 Accepted` error response makes `publish_signed_block_contents`
return `Ok` with an INFO log; any other 2xx status also returns `Ok`, with a
DEBUG log; every non-2xx error status yields `BlockError::Irrecoverable`, the
class that is never retried. -/
theorem publish_block_post_status_classification (err : Eth2Error) :
    (err.status = some 202 →
      publish_signed_block_contents (Except.error err) =
        ([⟨LogLevel.info, "Block is already known to BN or might be invalid"⟩],
          Except.ok ())) ∧
    (∀ s, err.status = some s → 200 ≤ s → s < 300 → s ≠ 202 →
      publish_signed_block_contents (Except.error err) =
        ([⟨LogLevel.debug, "Block published with non-standard success code"⟩],
          Except.ok ())) ∧
    (∀ s, err.status = some s → ¬ (200 ≤ s ∧ s < 300) →
      (publish_signed_block_contents (Except.error err)).2 =
        Except.error (BlockError.Irrecoverable
          ("Error from beacon node when publishing block: " ++ err.msg))) := by
  refine ⟨?_, ?_, ?_⟩
  · intro h
    simp [publish_signed_block_contents, handle_block_post_error, h]
  · intro s hs h200 h300 hne
    simp [publish_signed_block_contents, handle_block_post_error, hs, hne,
      h200, h300]
  · intro s hs hno
    have hne : s ≠ 202 := by
      rintro rfl
      exact hno (by omega)
    simp [publish_signed_block_contents, handle_block_post_error, hs, hne, hno]

/-- Concrete instances of the C1 classification: statuses 202, 204 and 400. -/
theorem publish_block_post_status_classification_witness :
    publish_signed_block_contents (Except.error ⟨some 202, "x"⟩) =
      ([⟨LogLevel.info, "Block is already known to BN or might be invalid"⟩],
        Except.ok ()) ∧
    publish_signed_block_contents (Except.error ⟨some 204, "x"⟩) =
      ([⟨LogLevel.debug, "Block published with non-standard success code"⟩],
        Except.ok ()) ∧
    (publish_signed_block_contents (Except.error ⟨some 400, "x"⟩)).2 =
      Except.error (BlockError.Irrecoverable
        ("Error from beacon node when publishing block: x")) :=
  ⟨(publish_block_post_status_classification ⟨some 202, "x"⟩).1 rfl,
   (publish_block_post_status_classification ⟨some 204, "x"⟩).2.1 204 rfl
     (by decide) (by decide) (by decide),
   (publish_block_post_status_classification ⟨some 400, "x"⟩).2.2 400 rfl
     (by decide)⟩

/-- C2: the combined `BlockError` of the fallback pool is `Irrecoverable`
exactly when at least one per-endpoint failure is a request that failed
irrecoverably, and `Recoverable` otherwise. -/
theorem block_error_from_errors_severity (e : Errors) :
    ((∃ p ∈ e.entries, is_irrecoverable_failure p.2 = true) →
      block_error_from_errors e = BlockError.Irrecoverable (errors_to_string e)) ∧
    ((∀ p ∈ e.entries, is_irrecoverable_failure p.2 = false) →
      block_error_from_errors e = BlockError.Recoverable (errors_to_string e)) := by
  constructor
  · intro h
    have : e.entries.any (fun p => is_irrecoverable_failure p.2) = true :=
      List.any_eq_true.mpr h
    simp [block_error_from_errors, this]
  · intro h
    have : e.entries.any (fun p => is_irrecoverable_failure p.2) = false := by
      simp only [List.any_eq_false]
      intro p hp
      simp [h p hp]
    simp [block_error_from_errors, this]

/-- Concrete instances of the C2 severity rule: one irrecoverable failure
among two endpoints forces `Irrecoverable`; unavailable endpoints and
recoverable request failures stay `Recoverable`. -/
theorem block_error_from_errors_severity_witness :
    block_error_from_errors
        ⟨[("node-a", FallbackError.Unavailable "offline"),
          ("node-b", FallbackError.RequestFailed (BlockError.Irrecoverable "x"))]⟩ =
      BlockError.Irrecoverable (errors_to_string
        ⟨[("node-a", FallbackError.Unavailable "offline"),
          ("node-b", FallbackError.RequestFailed (BlockError.Irrecoverable "x"))]⟩) ∧
    block_error_from_errors
        ⟨[("node-a", FallbackError.Unavailable "offline"),
          ("node-b", FallbackError.RequestFailed (BlockError.Recoverable "y"))]⟩ =
      BlockError.Recoverable (errors_to_string
        ⟨[("node-a", FallbackError.Unavailable "offline"),
          ("node-b", FallbackError.RequestFailed (BlockError.Recoverable "y"))]⟩) :=
  ⟨(block_error_from_errors_severity _).1
      ⟨("node-b", FallbackError.RequestFailed (BlockError.Irrecoverable "x")),
        by decide, rfl⟩,
   (block_error_from_errors_severity _).2 (by decide)⟩

/-- C5: the boost factor passed on is the per-validator value when present,
else the process-wide default, else none; a selected value of exactly 100 is
passed as none. -/
theorem get_builder_boost_factor_spec (pv df : Option Nat) :
    (∀ v, pv = some v → v ≠ 100 → get_builder_boost_factor pv df = some v) ∧
    (pv = some 100 → get_builder_boost_factor pv df = none) ∧
    (∀ v, pv = none → df = some v → v ≠ 100 →
      get_builder_boost_factor pv df = some v) ∧
    (pv = none → df = some 100 → get_builder_boost_factor pv df = none) ∧
    (pv = none → df = none → get_builder_boost_factor pv df = none) := by
  refine ⟨?_, ?_, ?_, ?_, ?_⟩
  · intro v h hne
    simp [get_builder_boost_factor, h, Option.orElse, hne]
  · intro h
    simp [get_builder_boost_factor, h, Option.orElse]
  · intro v h hd hne
    simp [get_builder_boost_factor, h, hd, Option.orElse, hne]
  · intro h hd
    simp [get_builder_boost_factor, h, hd, Option.orElse]
  · intro h hd
    simp [get_builder_boost_factor, h, hd, Option.orElse]

/-- Concrete instances of the C5 rule, including the sentinel 100 at both
configuration levels. -/
theorem get_builder_boost_factor_spec_witness :
    get_builder_boost_factor (some 90) (some 50) = some 90 ∧
    get_builder_boost_factor (some 100) (some 50) = none ∧
    get_builder_boost_factor none (some 50) = some 50 ∧
    get_builder_boost_factor none (some 100) = none ∧
    get_builder_boost_factor none none = none :=
  ⟨(get_builder_boost_factor_spec (some 90) (some 50)).1 90 rfl (by decide),
   (get_builder_boost_factor_spec (some 100) (some 50)).2.1 rfl,
   (get_builder_boost_factor_spec none (some 50)).2.2.1 50 rfl rfl (by decide),
   (get_builder_boost_factor_spec none (some 100)).2.2.2.1 rfl rfl,
   (get_builder_boost_factor_spec none none).2.2.2.2 rfl rfl⟩

/-- C9: `only_safe` keeps exactly the `SigningEnabled` key, `only_unsafe`
keeps exactly the keys that are not `SigningEnabled` (so for every status
exactly one of the two is `some`), and `ignored` keeps exactly the keys not
`UnknownToDoppelganger`. -/
theorem doppelganger_filters_partition (s : DoppelgangerStatus) :
    (only_safe s = if is_signing_enabled s then some (status_pubkey s) else none) ∧
    ( only_unsafe s =
      if is_signing_enabled s then none else some (status_pubkey s)) ∧
    ((only_safe s).isSome = !( only_unsafe s).isSome) ∧
    (ignored s =
      if is_unknown_to_doppelganger s then none else some (status_pubkey s)) := by
  cases s <;>
    simp [only_safe, only_unsafe, ignored, is_signing_enabled,
      is_unknown_to_doppelganger, status_pubkey]

/-! ## Endpoint fallback pool and `ProposerFallback` (block_service.rs) -/

/-- One beacon-node endpoint together with the outcome the requested closure
produces on it: the network collaborator is a parameter of the model. -/
structure Endpoint (O : Type) where
  name : String
  result : Except String O

/-- Whether an endpoint outcome is a success. -/
def except_ok {O : Type} : Except String O → Bool
  | Except.ok _ => true
  | Except.error _ => false

/-- Modelled from the spec: `first_success` invokes the closure on the
endpoints in order and returns the first `Ok`; it fails only when every
endpoint fails, returning a composite error enumerating the per-endpoint
failures. (The `beacon_node_fallback` crate is not among the staged
sources.) -/
def first_success {O : Type} : List (Endpoint O) → Except (List (String × String)) O
  | [] => Except.error []
  | ep :: rest =>
    match ep.result with
    | Except.ok o => Except.ok o
    | Except.error e =>
      match first_success rest with
      | Except.ok o => Except.ok o
      | Except.error errs => Except.error ((ep.name, e) :: errs)

/-- The error string of an endpoint outcome (empty for a success). -/
def error_of {O : Type} : Except String O → String
  | Except.ok _ => ""
  | Except.error e => e

/-- Modelled from the spec: `request` on a topic-subscribed pool broadcasts
the closure to every endpoint and succeeds when at least one endpoint
succeeds; otherwise it returns the composite error of all failures. -/
def broadcast_request {O : Type} (pool : List (Endpoint O)) :
    Except (List (String × String)) Unit :=
  if pool.any (fun ep => except_ok ep.result) then Except.ok ()
  else Except.error (pool.map fun ep => (ep.name, error_of ep.result))

/-- `ProposerFallback::request_proposers_first`: when proposer nodes exist,
call `request` on them and return `Ok` early on success; otherwise (absent
pool, or the proposer request failed) call `request` on the general pool.
The boolean records whether the general pool was queried. -/
def request_proposers_first {O : Type} (beacon_nodes : List (Endpoint O))
    (proposer_nodes : Option (List (Endpoint O))) :
    Except (List (String × String)) Unit × Bool :=
  match proposer_nodes with
  | some proposer_pool =>
    match broadcast_request proposer_pool with
    | Except.ok _ => (Except.ok (), false)
    | Except.error _ => (broadcast_request beacon_nodes, true)
  | none => (broadcast_request beacon_nodes, true)

/-- `ProposerFallback::request_proposers_last`: `first_success` on the
general pool first; on failure, `first_success` on the proposer pool when it
exists, else the general-pool error. The boolean records whether the
proposer pool was queried. -/
def request_proposers_last {O : Type} (beacon_nodes : List (Endpoint O))
    (proposer_nodes : Option (List (Endpoint O))) :
    Except (List (String × String)) O × Bool :=
  match first_success beacon_nodes, proposer_nodes with
  | Except.ok success, _ => (Except.ok success, false)
  | Except.error e, none => (Except.error e, false)
  | Except.error _, some proposer_pool => (first_success proposer_pool, true)

/-- A pool with a successful endpoint makes `first_success` succeed. -/
theorem first_success_ok_of_mem {O : Type} (pool : List (Endpoint O))
    (h : ∃ ep ∈ pool, except_ok ep.result = true) :
    ∃ o, first_success pool = Except.ok o := by
  induction pool with
  | nil => simp at h
  | cons ep rest ih =>
    obtain ⟨e0, he0, hok⟩ := h
    cases hres : ep.result with
    | ok o => exact ⟨o, by simp [first_success, hres]⟩
    | error msg =>
      have : ∃ e0 ∈ rest, except_ok e0.result = true := by
        rcases List.mem_cons.mp he0 with rfl | hmem
        · rw [hres] at hok
          simp [except_ok] at hok
        · exact ⟨e0, hmem, hok⟩
      obtain ⟨o, ho⟩ := ih this
      exact ⟨o, by simp [first_success, hres, ho]⟩

/-- A pool with no successful endpoint makes `first_success` fail. -/
theorem first_success_all_error {O : Type} (pool : List (Endpoint O))
    (h : ∀ ep ∈ pool, except_ok ep.result = false) :
    ∃ e, first_success pool = Except.error e := by
  induction pool with
  | nil => exact ⟨[], rfl⟩
  | cons ep rest ih =>
    cases hres : ep.result with
    | ok o =>
      have := h ep (List.mem_cons_self ep rest)
      rw [hres] at this
      simp [except_ok] at this
    | error msg =>
      obtain ⟨e, he⟩ := ih fun x hx => h x (List.mem_cons_of_mem ep hx)
      exact ⟨(ep.name, msg) :: e, by simp [first_success, hres, he]⟩

/-- C3: `request_proposers_last` tries `first_success` on the general pool
first and surfaces its success without touching the proposer pool; on
general-pool failure it queries the proposer pool only when one exists, and
surfaces the general-pool error when none does; it never queries the
proposer pool when any general-pool endpoint succeeds. -/
theorem request_proposers_last_spec {O : Type} (bn : List (Endpoint O))
    (pn : Option (List (Endpoint O))) :
    (∀ o, first_success bn = Except.ok o →
      request_proposers_last bn pn = (Except.ok o, false)) ∧
    ((∃ ep ∈ bn, except_ok ep.result = true) →
      (request_proposers_last bn pn).2 = false) ∧
    (∀ e, first_success bn = Except.error e → pn = none →
      request_proposers_last bn pn = (Except.error e, false)) ∧
    (∀ e ps, first_success bn = Except.error e → pn = some ps →
      request_proposers_last bn pn = (first_success ps, true)) := by
  refine ⟨?_, ?_, ?_, ?_⟩
  · intro o h
    simp [request_proposers_last, h]
  · intro h
    obtain ⟨o, ho⟩ := first_success_ok_of_mem bn h
    simp [request_proposers_last, ho]
  · intro e h hp
    simp [request_proposers_last, h, hp]
  · intro e ps h hp
    simp [request_proposers_last, h, hp]

/-- Concrete instances of the C3 routing rule. -/
theorem request_proposers_last_spec_witness :
    request_proposers_last [⟨"bn", Except.ok 5⟩] (some [⟨"pn", Except.ok 6⟩]) =
      (Except.ok 5, false) ∧
    request_proposers_last [⟨"bn", Except.error "down"⟩]
        (none : Option (List (Endpoint Nat))) =
      (Except.error [("bn", "down")], false) ∧
    request_proposers_last [⟨"bn", Except.error "down"⟩]
        (some [⟨"pn", Except.ok 6⟩]) =
      (first_success [⟨"pn", Except.ok 6⟩], true) :=
  ⟨(request_proposers_last_spec [⟨"bn", Except.ok 5⟩]
      (some [⟨"pn", Except.ok 6⟩])).1 5 rfl,
   (request_proposers_last_spec [⟨"bn", Except.error "down"⟩] none).2.2.1
      [("bn", "down")] rfl rfl,
   (request_proposers_last_spec [⟨"bn", Except.error "down"⟩]
      (some [⟨"pn", Except.ok 6⟩])).2.2.2 [("bn", "down")]
      [⟨"pn", Except.ok 6⟩] rfl rfl⟩

/-- C4: `request_proposers_first` tries the proposer pool first when present
and returns `Ok` at once on its success; only when the pool is absent or its
request failed does it fall back to the general pool; it never queries the
general pool when the proposer-pool request succeeds. -/
theorem request_proposers_first_spec {O : Type} (bn : List (Endpoint O))
    (pn : Option (List (Endpoint O))) :
    (∀ ps, pn = some ps → broadcast_request ps = Except.ok () →
      request_proposers_first bn pn = (Except.ok (), false)) ∧
    ((∃ ps, pn = some ps ∧ ∃ ep ∈ ps, except_ok ep.result = true) →
      request_proposers_first bn pn = (Except.ok (), false)) ∧
    (pn = none →
      request_proposers_first bn pn = (broadcast_request bn, true)) ∧
    (∀ ps e, pn = some ps → broadcast_request ps = Except.error e →
      request_proposers_first bn pn = (broadcast_request bn, true)) := by
  refine ⟨?_, ?_, ?_, ?_⟩
  · intro ps hp h
    simp [request_proposers_first, hp, h]
  · intro h
    obtain ⟨ps, hp, ep, hmem, hok⟩ := h
    have : broadcast_request ps = Except.ok () := by
      have hany : ps.any (fun e => except_ok e.result) = true :=
        List.any_eq_true.mpr ⟨ep, hmem, hok⟩
      simp [broadcast_request, hany]
    simp [request_proposers_first, hp, this]
  · intro hp
    simp [request_proposers_first, hp]
  · intro ps e hp h
    simp [request_proposers_first, hp, h]

/-- Concrete instances of the C4 routing rule. -/
theorem request_proposers_first_spec_witness :
    request_proposers_first [⟨"bn", Except.ok ()⟩]
        (some [⟨"pn", Except.ok ()⟩]) = (Except.ok (), false) ∧
    request_proposers_first [⟨"bn", Except.ok ()⟩]
        (none : Option (List (Endpoint Unit))) =
      (broadcast_request [⟨"bn", Except.ok ()⟩], true) ∧
    request_proposers_first [⟨"bn", Except.ok ()⟩]
        (some [⟨"pn", Except.error "down"⟩]) =
      (broadcast_request [⟨"bn", Except.ok ()⟩], true) :=
  ⟨(request_proposers_first_spec [⟨"bn", Except.ok ()⟩]
      (some [⟨"pn", Except.ok ()⟩])).2.1
      ⟨[⟨"pn", Except.ok ()⟩], rfl, ⟨"pn", Except.ok ()⟩, by simp, rfl⟩,
   (request_proposers_first_spec [⟨"bn", Except.ok ()⟩] none).2.2.1 rfl,
   (request_proposers_first_spec [⟨"bn", Except.ok ()⟩]
      (some [⟨"pn", Except.error "down"⟩])).2.2.2
      [⟨"pn", Except.error "down"⟩] [("pn", "down")] rfl rfl⟩

/-! ## Block service notification handling (block_service.rs, `do_update`) -/

/-- Chain parameters the services consult: the genesis slot and the first
Electra slot (none when the fork is not scheduled). -/
structure ChainSpec where
  genesis_slot : Nat
  electra_fork_slot : Option Nat
  deriving DecidableEq, Repr

/-- The fork in force at a slot; only the Electra boundary matters to the
staged services. -/
inductive ForkName
  | base
  | electra
  deriving DecidableEq, Repr

/-- `ForkName::electra_enabled`. -/
def ForkName.electra_enabled : ForkName → Bool
  | ForkName.electra => true
  | ForkName.base => false

/-- `ChainSpec::fork_name_at_slot`, reduced to the Electra boundary. -/
def ChainSpec.fork_name_at_slot (spec : ChainSpec) (slot : Nat) : ForkName :=
  match spec.electra_fork_slot with
  | some fork_slot => if fork_slot ≤ slot then ForkName.electra else ForkName.base
  | none => ForkName.base

/-- `BlockServiceNotification`: the duties service names the slot and its
local proposers. -/
structure BlockServiceNotification where
  slot : Nat
  block_proposers : List Pubkey
  deriving DecidableEq, Repr

/-- Observable step of `do_update`: a log line, or spawning the per-proposer
publish task (which is where the randao reveal, the block request, signing
and publishing happen) with the boost factor it was given. -/
inductive BlockAction
  | log (level : LogLevel) (msg : String)
  | spawnPublish (slot : Nat) (pubkey : Pubkey) (builder_boost_factor : Option Nat)
  deriving DecidableEq, Repr

/-- `BlockService::do_update`: read the slot clock (critical failure when it
cannot be read), drop expired notifications with a warning, do nothing but a
DEBUG log at the genesis slot, and otherwise spawn one publish task per
proposer, each with its builder boost factor. -/
def do_update (clock_now : Option Nat) (spec : ChainSpec)
    (validator_boost : Pubkey → Option Nat) (default_boost : Option Nat)
    (notification : BlockServiceNotification) :
    List BlockAction × Except Unit Unit :=
  match clock_now with
  | none =>
      ([BlockAction.log LogLevel.crit "Duties manager failed to read slot clock"],
        Except.error ())
  | some slot =>
    if notification.slot ≠ slot then
      ([BlockAction.log LogLevel.warn "Skipping block production for expired slot"],
        Except.ok ())
    else if slot = spec.genesis_slot then
      ([BlockAction.log LogLevel.debug "Not producing block at genesis slot"],
        Except.ok ())
    else
      let proposers := notification.block_proposers
      let proposer_logs :=
        if proposers.isEmpty then
          [BlockAction.log LogLevel.trace "No local block proposers for this slot"]
        else if proposers.length > 1 then
          [BlockAction.log LogLevel.error "Multiple block proposers for this slot"]
        else []
      (BlockAction.log LogLevel.trace "Block service update started" ::
        proposer_logs ++
        proposers.map (fun pk =>
          BlockAction.spawnPublish slot pk
            (get_builder_boost_factor (validator_boost pk) default_boost)),
        Except.ok ())

/-- C8 as stated is false: at the genesis slot the service logs at DEBUG
level, not INFO, so no INFO-level log is emitted. The trace is exactly one
DEBUG log and in particular contains no spawned publish work. -/
theorem genesis_slot_log_level_counterexample :
    (do_update (some 0) ⟨0, none⟩ (fun _ => none) none
        { slot := 0, block_proposers := [1] }).1 =
      [BlockAction.log LogLevel.debug "Not producing block at genesis slot"] ∧
    decide (LogLevel.debug = LogLevel.info) = false := by
  exact ⟨rfl, rfl⟩

/-- C8 amended: for every notification whose slot is the current slot and
equals the genesis slot, `do_update` emits exactly one DEBUG log "Not
producing block at genesis slot" and nothing else — no publish task is
spawned, hence no randao reveal, no network call and no signing. -/
theorem genesis_slot_noop_debug_log (clock_now : Option Nat) (spec : ChainSpec)
    (validator_boost : Pubkey → Option Nat) (default_boost : Option Nat)
    (notification : BlockServiceNotification) (slot : Nat)
    (h1 : clock_now = some slot) (h2 : notification.slot = slot)
    (h3 : slot = spec.genesis_slot) :
    do_update clock_now spec validator_boost default_boost notification =
      ([BlockAction.log LogLevel.debug "Not producing block at genesis slot"],
        Except.ok ()) := by
  subst h1
  simp [do_update, h2, h3]

/-- Concrete instance of the C8 amended behaviour at genesis slot 0. -/
theorem genesis_slot_noop_debug_log_witness :
    do_update (some 0) ⟨0, some 50⟩ (fun _ => some 80) (some 90)
        { slot := 0, block_proposers := [1, 2] } =
      ([BlockAction.log LogLevel.debug "Not producing block at genesis slot"],
        Except.ok ()) :=
  genesis_slot_noop_debug_log (some 0) ⟨0, some 50⟩ (fun _ => some 80) (some 90)
    { slot := 0, block_proposers := [1, 2] } 0 rfl rfl rfl

/-! ## Attestation service (attestation_service.rs) -/

/-- `AttestationData` as the services observe it: slot, committee index and
the vote fields (roots reduced to numbers). -/
structure AttestationData where
  slot : Nat
  index : Nat
  beacon_block_root : Nat
  source : Nat
  target : Nat
  deriving DecidableEq, Repr

/-- One attester duty, as supplied read-only by the duties service. -/
structure Duty where
  pubkey : Pubkey
  validator_index : Nat
  slot : Nat
  committee_index : Nat
  committee_length : Nat
  validator_committee_index : Nat
  deriving DecidableEq, Repr

/-- `DutyAndProof`: a duty plus the optional selection proof marking the
validator as an aggregator. -/
structure DutyAndProof where
  duty : Duty
  selection_proof : Option Nat
  deriving DecidableEq, Repr

/-- An attestation: the pre-Electra `Base` variant carries the committee
index inside its data, the Electra variant carries committee bits beside a
zero-index data. Aggregation bits are the set positions. -/
inductive Attestation
  | base (data : AttestationData) (aggregation_bits : List Nat)
  | electra (committee_index : Nat) (data : AttestationData)
      (aggregation_bits : List Nat)
  deriving DecidableEq, Repr

/-- `SingleAttestation` (Electra): committee index, attester index and the
vote data. -/
structure SingleAttestation where
  committee_index : Nat
  attester_index : Nat
  data : AttestationData
  deriving DecidableEq, Repr

/-- `Attestation::empty_for_signing`: Electra slots produce the Electra
variant (data index zeroed, committee index kept beside it), earlier slots
the Base variant with the committee index inside the data. -/
def empty_for_signing (spec : ChainSpec) (committee_index committee_length : Nat)
    (data : AttestationData) : Attestation :=
  if (spec.fork_name_at_slot data.slot).electra_enabled then
    Attestation.electra committee_index
      { slot := data.slot, index := 0,
        beacon_block_root := data.beacon_block_root,
        source := data.source, target := data.target } []
  else
    Attestation.base
      { slot := data.slot, index := committee_index,
        beacon_block_root := data.beacon_block_root,
        source := data.source, target := data.target } []

/-- The in-place signing mutation: set the aggregation bit at the signer's
committee position. -/
def add_aggregation_bit : Attestation → Nat → Attestation
  | Attestation.base data bits, position =>
      Attestation.base data (bits ++ [position])
  | Attestation.electra committee_index data bits, position =>
      Attestation.electra committee_index data (bits ++ [position])

/-- The signed attestation a successful Phase-A signing produces for a duty:
`empty_for_signing` followed by setting the duty's committee position. -/
def mk_signed_attestation (spec : ChainSpec) (duty : Duty)
    (data : AttestationData) : Attestation :=
  add_aggregation_bit
    (empty_for_signing spec duty.committee_index duty.committee_length data)
    duty.validator_committee_index

/-- `Attestation::to_single_attestation_with_attester_index`: fails on the
Base variant, tags the Electra variant with the given attester index. -/
def to_single_attestation_with_attester_index :
    Attestation → Nat → Option SingleAttestation
  | Attestation.base _ _, _ => none
  | Attestation.electra committee_index data _, attester_index =>
      some { committee_index := committee_index,
             attester_index := attester_index, data := data }

/-- Outcome of a `sign_attestation` call on the validator store; `failed`
covers every error other than a missing pubkey (both are dropped with a
log). Construction failures of `empty_for_signing` are folded into
`failed` as they drop the duty the same way. -/
inductive SignOutcome
  | ok
  | unknownPubkey (pubkey : Pubkey)
  | failed (msg : String)
  deriving DecidableEq, Repr

/-- A signed aggregate-and-proof, reduced to the aggregator index and the
aggregate it wraps. -/
structure SignedAggregateAndProof where
  aggregator_index : Nat
  aggregate : Attestation
  deriving DecidableEq, Repr

/-- The collaborators of one per-committee attestation routine run: the
chain spec, the slot clock reading, the duty/data consistency check, the
per-duty signing outcomes, the per-endpoint network outcomes and the
publish outcomes. -/
structure AttestEnv where
  spec : ChainSpec
  clock_now : Option Nat
  match_attestation_data : Duty → AttestationData → Bool
  sign_attestation : Duty → SignOutcome
  att_data_endpoints : List (Endpoint AttestationData)
  post_attestations_result : Except String Unit
  agg_endpoints : List (Endpoint (Option Attestation))
  produce_signed_aggregate : Duty → Attestation → Option SignedAggregateAndProof
  post_aggregates_result : Except String Unit

/-- Observable step of the per-committee routine. -/
inductive Action
  | getAttestationData (slot : Nat) (committee_index : Nat)
  | postAttestationsV1 (attestations : List Attestation)
  | postAttestationsV2 (attestations : List SingleAttestation) (fork : ForkName)
  | sleepUntilAggregationInstant
  | getAggregate (slot : Nat) (committee_index : Nat)
  | signAggregate (pubkey : Pubkey)
  | postAggregatesV1 (count : Nat)
  | postAggregatesV2 (count : Nat) (fork : ForkName)
  | log (level : LogLevel) (msg : String)
  deriving DecidableEq, Repr

/-- The successful results of the Phase-A signing futures, in duty order:
each duty that matches the data and signs successfully contributes its
signed attestation paired with its validator index. -/
def signed_pairs (env : AttestEnv) (data : AttestationData)
    (validator_duties : List DutyAndProof) : List (Attestation × Nat) :=
  validator_duties.filterMap fun duty_and_proof =>
    let duty := duty_and_proof.duty
    if env.match_attestation_data duty data then
      match env.sign_attestation duty with
      | SignOutcome.ok =>
          some (mk_signed_attestation env.spec duty data, duty.validator_index)
      | _ => none
    else none

/-- The duties whose Phase-A signing succeeded, in duty order. -/
def signed_duties (env : AttestEnv) (data : AttestationData)
    (validator_duties : List DutyAndProof) : List Duty :=
  validator_duties.filterMap fun duty_and_proof =>
    if env.match_attestation_data duty_and_proof.duty data then
      match env.sign_attestation duty_and_proof.duty with
      | SignOutcome.ok => some duty_and_proof.duty
      | _ => none
    else none

/-- Rendering of attestation data in error messages. -/
def render_attestation_data (data : AttestationData) : String :=
  "slot " ++ toString data.slot ++ " index " ++ toString data.index

/-- Rendering of a composite fallback error, standing in for
`Errors::to_string` of the generic pool. -/
def render_errors (errs : List (String × String)) : String :=
  errs.foldl (fun acc p => acc ++ p.1 ++ ": " ++ p.2 ++ "; ")
    "Some endpoints failed. "

/-- The log line of the unaggregated publish, by its outcome. -/
def post_attestations_log (env : AttestEnv) : Action :=
  match env.post_attestations_result with
  | Except.ok _ => Action.log LogLevel.info "Successfully published attestations"
  | Except.error e =>
      Action.log LogLevel.error ("Unable to publish attestations: " ++ e)

/-- Phase A, `produce_and_publish_attestations`: empty duties return no
data; the clock must be readable; one `first_success` fetch of the
attestation data; each duty signs (mismatches and signing failures are
dropped); an empty signed set returns no data with a warning; otherwise the
collected attestations are published — converted to `SingleAttestation`
(attester index from the paired validator index) on the v2 endpoint when the
fork at the data slot has Electra enabled, unconverted on v1 otherwise — and
the data is returned. -/
def produce_and_publish_attestations (env : AttestEnv)
    (slot committee_index : Nat) (validator_duties : List DutyAndProof) :
    List Action × Except String (Option AttestationData) :=
  if validator_duties.isEmpty then ([], Except.ok none)
  else
    match env.clock_now with
    | none => ([], Except.error "Unable to determine current slot from clock")
    | some _current_slot =>
      match first_success env.att_data_endpoints with
      | Except.error e =>
          ([Action.getAttestationData slot committee_index],
            Except.error (render_errors e))
      | Except.ok attestation_data =>
        let signed := signed_pairs env attestation_data validator_duties
        let attestations := signed.map Prod.fst
        let validator_indices := signed.map Prod.snd
        if attestations.isEmpty then
          ([Action.getAttestationData slot committee_index,
            Action.log LogLevel.warn "No attestations were published"],
            Except.ok none)
        else
          let fork := env.spec.fork_name_at_slot attestation_data.slot
          let post_action :=
            if fork.electra_enabled then
              Action.postAttestationsV2
                ((attestations.zip validator_indices).filterMap fun p =>
                  to_single_attestation_with_attester_index p.1 p.2)
                fork
            else Action.postAttestationsV1 attestations
          ([Action.getAttestationData slot committee_index, post_action,
            post_attestations_log env],
            Except.ok (some attestation_data))

/-- Phase B, `produce_and_publish_aggregates`: exit early when no duty has a
selection proof; fetch the aggregate with `first_success`, where an
endpoint answering that no aggregate is available counts as that endpoint
failing; sign one aggregate-and-proof per aggregating duty that matches the
data; publish the non-empty result on the v2 or v1 endpoint by fork. -/
def produce_and_publish_aggregates (env : AttestEnv)
    (attestation_data : AttestationData) (committee_index : Nat)
    (validator_duties : List DutyAndProof) :
    List Action × Except String Unit :=
  if !(validator_duties.any fun dp => (dp.selection_proof).isSome) then
    ([], Except.ok ())
  else
    let fork := env.spec.fork_name_at_slot attestation_data.slot
    let per_endpoint : List (Endpoint Attestation) :=
      env.agg_endpoints.map fun ep =>
        { name := ep.name
          result :=
            match ep.result with
            | Except.ok (some aggregate) => Except.ok aggregate
            | Except.ok none =>
                Except.error ("No aggregate available for " ++
                  render_attestation_data attestation_data)
            | Except.error e =>
                Except.error ("Failed to produce an aggregate attestation: " ++ e) }
    match first_success per_endpoint with
    | Except.error e =>
        ([Action.getAggregate attestation_data.slot committee_index],
          Except.error (render_errors e))
    | Except.ok aggregated_attestation =>
      let sign_actions := validator_duties.filterMap fun dp =>
        match dp.selection_proof with
        | none => none
        | some _ =>
          if env.match_attestation_data dp.duty attestation_data then
            some (Action.signAggregate dp.duty.pubkey)
          else none
      let signed_aggregate_and_proofs := validator_duties.filterMap fun dp =>
        match dp.selection_proof with
        | none => none
        | some _ =>
          if env.match_attestation_data dp.duty attestation_data then
            env.produce_signed_aggregate dp.duty aggregated_attestation
          else none
      let post_actions :=
        if signed_aggregate_and_proofs.isEmpty then []
        else
          [if fork.electra_enabled then
            Action.postAggregatesV2 signed_aggregate_and_proofs.length fork
          else Action.postAggregatesV1 signed_aggregate_and_proofs.length]
      (Action.getAggregate attestation_data.slot committee_index ::
        sign_actions ++ post_actions, Except.ok ())

/-- `publish_attestations_and_aggregates`, the per-committee routine: empty
duties return silently; Phase A errors are logged critically and fail the
routine; when Phase A returns no data the routine ends successfully with no
Phase-B work; otherwise the routine sleeps until the aggregation instant and
runs Phase B, whose errors are also logged critically and fail the
routine. -/
def publish_attestations_and_aggregates (env : AttestEnv)
    (slot committee_index : Nat) (validator_duties : List DutyAndProof) :
    List Action × Except Unit Unit :=
  if validator_duties.isEmpty then ([], Except.ok ())
  else
    match produce_and_publish_attestations env slot committee_index validator_duties with
    | (acts, Except.error e) =>
        (acts ++ [Action.log LogLevel.crit ("Error during attestation routine: " ++ e)],
          Except.error ())
    | (acts, Except.ok none) => (acts, Except.ok ())
    | (acts, Except.ok (some attestation_data)) =>
      match produce_and_publish_aggregates env attestation_data committee_index
          validator_duties with
      | (agg_acts, Except.error e) =>
          (acts ++ Action.sleepUntilAggregationInstant :: agg_acts ++
            [Action.log LogLevel.crit ("Error during attestation routine: " ++ e)],
            Except.error ())
      | (agg_acts, Except.ok _) =>
          (acts ++ Action.sleepUntilAggregationInstant :: agg_acts, Except.ok ())

/-! ## Lemmas about the attestation routine -/

/-- The Phase-A successes are the signed duties, each paired with its own
signed attestation and validator index. -/
theorem signed_pairs_eq (env : AttestEnv) (data : AttestationData)
    (validator_duties : List DutyAndProof) :
    signed_pairs env data validator_duties =
      (signed_duties env data validator_duties).map fun duty =>
        (mk_signed_attestation env.spec duty data, duty.validator_index) := by
  induction validator_duties with
  | nil => rfl
  | cons dp rest ih =>
    simp only [signed_pairs, signed_duties, List.filterMap_cons] at ih ⊢
    by_cases hm : env.match_attestation_data dp.duty data
    · cases hs : env.sign_attestation dp.duty <;>
        simp [hm, hs, signed_pairs, signed_duties] at ih ⊢ <;> exact ih
    · simp [hm, signed_pairs, signed_duties] at ih ⊢
      exact ih

/-- `filterMap` of a function that always succeeds is a `map`. -/
theorem filterMap_some_eq_map {α β : Type} (f : α → β) (l : List α) :
    l.filterMap (fun a => some (f a)) = l.map f := by
  induction l with
  | nil => rfl
  | cons a l ih => simp [List.filterMap_cons, ih]

/-- The actions of Phase B proper: the two-thirds-slot wait, the aggregate
fetch, aggregate signing and aggregate publishing. -/
def is_aggregate_action : Action → Bool
  | Action.sleepUntilAggregationInstant => true
  | Action.getAggregate _ _ => true
  | Action.signAggregate _ => true
  | Action.postAggregatesV1 _ => true
  | Action.postAggregatesV2 _ _ => true
  | _ => false

/-- Phase A performs none of the Phase-B actions. -/
theorem produce_attestations_no_aggregate_actions (env : AttestEnv)
    (slot committee_index : Nat) (validator_duties : List DutyAndProof) :
    ∀ a ∈ (produce_and_publish_attestations env slot committee_index
      validator_duties).1, is_aggregate_action a = false := by
  intro a ha
  unfold produce_and_publish_attestations at ha
  split at ha
  · simp at ha
  · split at ha
    · simp at ha
    · split at ha
      · simp at ha
        subst ha
        rfl
      · dsimp only at ha
        split at ha
        · simp at ha
          rcases ha with rfl | rfl <;> rfl
        · simp at ha
          rcases ha with rfl | rfl | rfl
          · rfl
          · split <;> rfl
          · unfold post_attestations_log
            split <;> rfl

/-! ## C6: a beacon node reporting "no aggregate available" -/

/-- Attestation data for the concrete C6 scenario: slot 100, committee 3. -/
def data_no_agg : AttestationData :=
  { slot := 100, index := 3, beacon_block_root := 17, source := 1, target := 2 }

/-- One aggregating duty for the concrete C6 scenario. -/
def duty_no_agg : DutyAndProof :=
  { duty := { pubkey := 11, validator_index := 7, slot := 100,
              committee_index := 3, committee_length := 2,
              validator_committee_index := 0 },
    selection_proof := some 5 }

/-- Environment for the concrete C6 scenario: Phase A succeeds on a single
healthy endpoint, but the aggregate fetch returns `Ok(None)` — the beacon
node reports that no aggregate is available. -/
def env_no_agg : AttestEnv :=
  { spec := { genesis_slot := 0, electra_fork_slot := none }
    clock_now := some 100
    match_attestation_data := fun _ _ => true
    sign_attestation := fun _ => SignOutcome.ok
    att_data_endpoints := [⟨"bn", Except.ok data_no_agg⟩]
    post_attestations_result := Except.ok ()
    agg_endpoints := [⟨"bn", Except.ok none⟩]
    produce_signed_aggregate := fun duty aggregate =>
      some { aggregator_index := duty.validator_index, aggregate := aggregate }
    post_aggregates_result := Except.ok () }

/-- C6 as stated is false: when the beacon node reports that no aggregate is
available, the per-committee routine does not complete successfully — it
returns an error (after a critical log). -/
theorem no_aggregate_available_errors_counterexample :
    (publish_attestations_and_aggregates env_no_agg 100 3 [duty_no_agg]).2 =
      Except.error () ∧
    (produce_and_publish_aggregates env_no_agg data_no_agg 3 [duty_no_agg]).2 =
      Except.error (render_errors
        [("bn", "No aggregate available for " ++
          render_attestation_data data_no_agg)]) := by
  exact ⟨rfl, rfl⟩

/-- C6 amended: a beacon node reporting that no aggregate is available is
treated as that endpoint failing, so when some duty aggregates and every
endpoint reports no aggregate, `produce_and_publish_aggregates` returns an
error (which the caller logs critically and propagates). -/
theorem no_aggregate_available_yields_error (env : AttestEnv)
    (attestation_data : AttestationData) (committee_index : Nat)
    (validator_duties : List DutyAndProof)
    (hagg : (validator_duties.any fun dp => (dp.selection_proof).isSome) = true)
    (hnone : ∀ ep ∈ env.agg_endpoints, ep.result = Except.ok none) :
    ∃ e, (produce_and_publish_aggregates env attestation_data committee_index
      validator_duties).2 = Except.error e := by
  have hall : ∀ ep ∈ (env.agg_endpoints.map fun ep =>
      ({ name := ep.name
         result :=
           match ep.result with
           | Except.ok (some aggregate) => Except.ok aggregate
           | Except.ok none =>
               Except.error ("No aggregate available for " ++
                 render_attestation_data attestation_data)
           | Except.error e =>
               Except.error ("Failed to produce an aggregate attestation: " ++ e) } :
        Endpoint Attestation)),
      except_ok ep.result = false := by
    intro ep hep
    rcases List.mem_map.mp hep with ⟨ep0, h0, rfl⟩
    rw [hnone ep0 h0]
    rfl
  obtain ⟨e, he⟩ := first_success_all_error _ hall
  unfold produce_and_publish_aggregates
  simp [hagg, he]

/-- Concrete instance of the C6 amended behaviour. -/
theorem no_aggregate_available_yields_error_witness :
    ∃ e, (produce_and_publish_aggregates env_no_agg data_no_agg 3
      [duty_no_agg]).2 = Except.error e :=
  no_aggregate_available_yields_error env_no_agg data_no_agg 3 [duty_no_agg]
    (by decide)
    (by
      intro ep hep
      simp only [env_no_agg, List.mem_singleton] at hep
      subst hep
      rfl)

/-! ## C7: Electra conversion and endpoint selection -/

/-- Under an Electra fork the signed attestation of a duty is the Electra
variant with the duty's committee index, zeroed data index and the duty's
committee position set. -/
theorem mk_signed_attestation_electra (spec : ChainSpec) (duty : Duty)
    (data : AttestationData)
    (h : (spec.fork_name_at_slot data.slot).electra_enabled = true) :
    mk_signed_attestation spec duty data =
      Attestation.electra duty.committee_index
        { slot := data.slot, index := 0,
          beacon_block_root := data.beacon_block_root,
          source := data.source, target := data.target }
        [duty.validator_committee_index] := by
  simp [mk_signed_attestation, empty_for_signing, h, add_aggregation_bit]

/-- The single attestations published under Electra: one per successfully
signed duty, tagged with that duty's validator index as attester index. -/
def electra_single_attestations (env : AttestEnv) (data : AttestationData)
    (validator_duties : List DutyAndProof) : List SingleAttestation :=
  (signed_duties env data validator_duties).map fun duty =>
    { committee_index := duty.committee_index
      attester_index := duty.validator_index
      data := { slot := data.slot, index := 0,
                beacon_block_root := data.beacon_block_root,
                source := data.source, target := data.target } }

/-- C7: when the fork at the data slot has Electra enabled, Phase A posts
on the v2 endpoint, with the fork name, the signed attestations converted
to `SingleAttestation` form tagged each with its duty's validator index;
for a pre-Electra slot it posts the unconverted attestations on v1. -/
theorem electra_attestation_publish_spec (env : AttestEnv)
    (slot committee_index : Nat) (validator_duties : List DutyAndProof)
    (now : Nat) (data : AttestationData)
    (h0 : validator_duties ≠ [])
    (h1 : env.clock_now = some now)
    (h2 : first_success env.att_data_endpoints = Except.ok data)
    (h3 : signed_duties env data validator_duties ≠ []) :
    ((env.spec.fork_name_at_slot data.slot).electra_enabled = true →
      produce_and_publish_attestations env slot committee_index validator_duties =
        ([Action.getAttestationData slot committee_index,
          Action.postAttestationsV2
            (electra_single_attestations env data validator_duties)
            (env.spec.fork_name_at_slot data.slot),
          post_attestations_log env], Except.ok (some data))) ∧
    ((env.spec.fork_name_at_slot data.slot).electra_enabled = false →
      produce_and_publish_attestations env slot committee_index validator_duties =
        ([Action.getAttestationData slot committee_index,
          Action.postAttestationsV1
            ((signed_duties env data validator_duties).map fun duty =>
              mk_signed_attestation env.spec duty data),
          post_attestations_log env], Except.ok (some data))) := by
  have hie : validator_duties.isEmpty = false := by
    cases validator_duties with
    | nil => exact absurd rfl h0
    | cons a l => rfl
  have hsp := signed_pairs_eq env data validator_duties
  have hnonempty :
      ((signed_pairs env data validator_duties).map Prod.fst).isEmpty = false := by
    rw [hsp]
    cases hsd : signed_duties env data validator_duties with
    | nil => exact absurd hsd h3
    | cons d l => rfl
  have hatt :
      (signed_pairs env data validator_duties).map Prod.fst =
        (signed_duties env data validator_duties).map fun duty =>
          mk_signed_attestation env.spec duty data := by
    rw [hsp, List.map_map]
    rfl
  constructor <;> intro hfork
  · have hconv :
        (((signed_pairs env data validator_duties).map Prod.fst).zip
            ((signed_pairs env data validator_duties).map Prod.snd)).filterMap
          (fun p => to_single_attestation_with_attester_index p.1 p.2) =
        electra_single_attestations env data validator_duties := by
      rw [List.zip_map']
      simp only [Prod.mk.eta, List.map_id']
      rw [hsp, List.filterMap_map]
      have hpoint : ∀ duty,
          to_single_attestation_with_attester_index
            (mk_signed_attestation env.spec duty data) duty.validator_index =
          some { committee_index := duty.committee_index,
                 attester_index := duty.validator_index,
                 data := { slot := data.slot, index := 0,
                           beacon_block_root := data.beacon_block_root,
                           source := data.source, target := data.target } } := by
        intro duty
        rw [mk_signed_attestation_electra env.spec duty data hfork]
        rfl
      simp only [Function.comp_def, hpoint]
      rw [filterMap_some_eq_map]
      rfl
    unfold produce_and_publish_attestations
    rw [h1, h2]
    simp only [hie, Bool.false_eq_true, if_false, hnonempty, hfork, if_true,
      hconv]
  · have hnonempty2 :
        (((signed_duties env data validator_duties).map fun duty =>
          mk_signed_attestation env.spec duty data)).isEmpty = false := by
      rw [← hatt]
      exact hnonempty
    unfold produce_and_publish_attestations
    rw [h1, h2]
    simp only [hie, Bool.false_eq_true, if_false, hnonempty, hfork, hatt,
      hnonempty2]

/-- Chain spec with Electra active from slot 50. -/
def spec_electra : ChainSpec := { genesis_slot := 0, electra_fork_slot := some 50 }

/-- Attestation data at the post-Electra slot 200. -/
def data_electra : AttestationData :=
  { slot := 200, index := 3, beacon_block_root := 9, source := 1, target := 2 }

/-- First of two duties in committee 3 at slot 200. -/
def duty_one : DutyAndProof :=
  { duty := { pubkey := 21, validator_index := 40, slot := 200,
              committee_index := 3, committee_length := 2,
              validator_committee_index := 0 },
    selection_proof := none }

/-- Second of two duties in committee 3 at slot 200, an aggregator. -/
def duty_two : DutyAndProof :=
  { duty := { pubkey := 22, validator_index := 41, slot := 200,
              committee_index := 3, committee_length := 2,
              validator_committee_index := 1 },
    selection_proof := some 5 }

/-- Healthy post-Electra environment: one endpoint, both signatures
succeed. -/
def env_electra : AttestEnv :=
  { spec := spec_electra
    clock_now := some 200
    match_attestation_data := fun duty d => duty.slot == d.slot
    sign_attestation := fun _ => SignOutcome.ok
    att_data_endpoints := [⟨"bn", Except.ok data_electra⟩]
    post_attestations_result := Except.ok ()
    agg_endpoints :=
      [⟨"bn", Except.ok (some (Attestation.electra 3 data_electra [0, 1]))⟩]
    produce_signed_aggregate := fun duty aggregate =>
      some { aggregator_index := duty.validator_index, aggregate := aggregate }
    post_aggregates_result := Except.ok () }

/-- Concrete instance of C7: two duties at the post-Electra slot 200 publish
two converted `SingleAttestation`s on the v2 endpoint with the fork name. -/
theorem electra_attestation_publish_spec_witness :
    produce_and_publish_attestations env_electra 200 3 [duty_one, duty_two] =
      ([Action.getAttestationData 200 3,
        Action.postAttestationsV2
          (electra_single_attestations env_electra data_electra
            [duty_one, duty_two])
          (env_electra.spec.fork_name_at_slot data_electra.slot),
        post_attestations_log env_electra], Except.ok (some data_electra)) :=
  (electra_attestation_publish_spec env_electra 200 3 [duty_one, duty_two] 200
      data_electra (by decide) rfl rfl (by decide)).1 (by decide)

/-! ## C10: aggregation only after a signed attestation -/

/-- C10: Phase A reports no data when no attestation was signed, the
per-committee routine does no Phase-B work and succeeds when Phase A
reports no data, and every Phase-B action in the routine's trace implies
Phase A returned attestation data (so at least one signed attestation was
collected). -/
theorem aggregates_only_after_signed_attestations (env : AttestEnv)
    (slot committee_index : Nat) (validator_duties : List DutyAndProof)
    (now : Nat) (data : AttestationData)
    (h1 : env.clock_now = some now)
    (h2 : first_success env.att_data_endpoints = Except.ok data) :
    (signed_pairs env data validator_duties = [] →
      (produce_and_publish_attestations env slot committee_index
        validator_duties).2 = Except.ok none) ∧
    ((produce_and_publish_attestations env slot committee_index
        validator_duties).2 = Except.ok none →
      publish_attestations_and_aggregates env slot committee_index
          validator_duties =
        ((produce_and_publish_attestations env slot committee_index
          validator_duties).1, Except.ok ())) ∧
    (∀ a ∈ (publish_attestations_and_aggregates env slot committee_index
        validator_duties).1, is_aggregate_action a = true →
      ∃ d, (produce_and_publish_attestations env slot committee_index
        validator_duties).2 = Except.ok (some d)) := by
  refine ⟨?_, ?_, ?_⟩
  · intro hempty
    by_cases hie : validator_duties.isEmpty = true
    · unfold produce_and_publish_attestations
      simp [hie]
    · unfold produce_and_publish_attestations
      rw [h1, h2]
      simp [hie, hempty]
  · intro hnone
    by_cases hie : validator_duties.isEmpty = true
    · have hprod : produce_and_publish_attestations env slot committee_index
          validator_duties = ([], Except.ok none) := by
        unfold produce_and_publish_attestations
        simp [hie]
      unfold publish_attestations_and_aggregates
      rw [hprod]
      simp [hie]
    · rcases hp : produce_and_publish_attestations env slot committee_index
        validator_duties with ⟨acts, res⟩
      rw [hp] at hnone
      dsimp only at hnone
      subst hnone
      unfold publish_attestations_and_aggregates
      rw [hp]
      simp [hie]
  · intro a ha htrue
    by_cases hie : validator_duties.isEmpty = true
    · unfold publish_attestations_and_aggregates at ha
      simp [hie] at ha
    · rcases hp : produce_and_publish_attestations env slot committee_index
        validator_duties with ⟨acts, res⟩
      have hacts : ∀ x ∈ acts, is_aggregate_action x = false := by
        intro x hx
        have := produce_attestations_no_aggregate_actions env slot
          committee_index validator_duties x (by rw [hp]; exact hx)
        exact this
      unfold publish_attestations_and_aggregates at ha
      rw [hp] at ha
      simp only [hie, Bool.false_eq_true, if_false] at ha
      cases res with
      | error e =>
        simp only [List.mem_append, List.mem_singleton] at ha
        rcases ha with hmem | rfl
        · rw [hacts a hmem] at htrue
          exact absurd htrue (by decide)
        · simp [is_aggregate_action] at htrue
      | ok odata =>
        cases odata with
        | none =>
          dsimp only at ha
          rw [hacts a ha] at htrue
          exact absurd htrue (by decide)
        | some d => exact ⟨d, rfl⟩

/-- Environment in which every Phase-A signing attempt fails. -/
def env_sign_fail : AttestEnv :=
  { spec := { genesis_slot := 0, electra_fork_slot := none }
    clock_now := some 100
    match_attestation_data := fun _ _ => true
    sign_attestation := fun _ => SignOutcome.failed "slashable"
    att_data_endpoints := [⟨"bn", Except.ok data_no_agg⟩]
    post_attestations_result := Except.ok ()
    agg_endpoints := [⟨"bn", Except.ok (some (Attestation.base data_no_agg [0]))⟩]
    produce_signed_aggregate := fun duty aggregate =>
      some { aggregator_index := duty.validator_index, aggregate := aggregate }
    post_aggregates_result := Except.ok () }

/-- Concrete instance of C10: with every signing attempt failing, Phase A
reports no data and the routine succeeds with no Phase-B work. -/
theorem aggregates_only_after_signed_attestations_witness :
    (produce_and_publish_attestations env_sign_fail 100 3 [duty_no_agg]).2 =
      Except.ok none ∧
    publish_attestations_and_aggregates env_sign_fail 100 3 [duty_no_agg] =
      ((produce_and_publish_attestations env_sign_fail 100 3 [duty_no_agg]).1,
        Except.ok ()) := by
  have h := aggregates_only_after_signed_attestations env_sign_fail 100 3
    [duty_no_agg] 100 data_no_agg rfl rfl
  have h1 := h.1 (by decide)
  exact ⟨h1, h.2.1 h1⟩

end Lighthouse
